import Mathlib

/-!
Shallow embedding of `src/JestExt/process-listeners.ts` (vscode-jest).

The TypeScript module defines three listener classes driven by raw
process events, a single-shot long-run timer, and a set of regular
expressions that classify stderr text.  Below, each source function is
translated into an executable Lean definition; regular-expression tests
and captures are embedded as character-list scans with the exact
semantics the JS regexes have on the inputs the listeners receive.
-/

namespace ProcessListeners

/-- Case-sensitive list prefix test (pattern first, text second). -/
def startsWithL : List Char → List Char → Bool
  | [], _ => true
  | _ :: _, [] => false
  | p :: ps, c :: cs => p == c && startsWithL ps cs

/-- Case-sensitive substring search over char lists (pattern first). -/
def hasSubL (pat : List Char) : List Char → Bool
  | [] => startsWithL pat []
  | c :: cs => startsWithL pat (c :: cs) || hasSubL pat cs

/-- JS `String.prototype.includes` (case-sensitive substring test). -/
def strHasSubstr (s pat : String) : Bool :=
  hasSubL pat.toList s.toList

/-- Lower-case every character (models a regex `i` flag). -/
def lowerList (l : List Char) : List Char :=
  l.map Char.toLower

/-- Case-insensitive prefix test: `pat` is pre-lowered, text is raw. -/
def ciStartsWith : List Char → List Char → Bool
  | [], _ => true
  | _ :: _, [] => false
  | p :: ps, c :: cs => p == c.toLower && ciStartsWith ps cs

/-- Case-insensitive substring search (`pat` pre-lowered). -/
def ciHasSubL (pat : List Char) : List Char → Bool
  | [] => ciStartsWith pat []
  | c :: cs => ciStartsWith pat (c :: cs) || ciHasSubL pat cs

/-- Case-insensitive substring test on strings. -/
def ciHasSubstr (s pat : String) : Bool :=
  ciHasSubL (lowerList pat.toList) s.toList

/-- First occurrence (case-insensitive) of a pre-lowered pattern;
returns the text that follows the occurrence. -/
def seekAfterCi (pat : List Char) : List Char → Option (List Char)
  | [] => if pat.isEmpty then some [] else none
  | c :: cs =>
    if ciStartsWith pat (c :: cs) then some ((c :: cs).drop pat.length)
    else seekAfterCi pat cs

/-- Characters matched by the JS regex `.` (no line terminators). -/
def isJsDotChar (c : Char) : Bool :=
  c != '\n' && c != '\r' && c.toNat != 0x2028 && c.toNat != 0x2029

/-- Digit run to a natural number. -/
def digitsToNat (ds : List Char) : Nat :=
  ds.foldl (fun acc c => acc * 10 + (c.toNat - 48)) 0

/-- `RUN_START_TEST_SUITES_REGEX = /onRunStart: numTotalTestSuites: ((\d)+)/im`,
pattern literal, pre-lowered for the `i` flag. -/
def runStartPat : List Char :=
  lowerList "onRunStart: numTotalTestSuites: ".toList

/-- Scan for the first position where `runStartPat` matches followed by
at least one digit; capture the maximal digit run (group 1 of the regex). -/
def findRunStartCount : List Char → Option Nat
  | [] => none
  | c :: cs =>
    if ciStartsWith runStartPat (c :: cs) then
      let ds := ((c :: cs).drop runStartPat.length).takeWhile Char.isDigit
      if ds.isEmpty then findRunStartCount cs else some (digitsToNat ds)
    else findRunStartCount cs

/-- `RunTestListener.getNumTotalTestSuites`: regex match + `Number` +
`Number.isInteger` (always true on a digit run). -/
def getNumTotalTestSuites (text : String) : Option Nat :=
  findRunStartCount text.toList

/-- `RUN_EXEC_ERROR = /onRunComplete: execError: (.*)/im`, pre-lowered. -/
def execErrorPat : List Char :=
  lowerList "onRunComplete: execError: ".toList

/-- First case-insensitive occurrence of the exec-error literal; group 1
is the greedy `(.*)` capture: the rest of that line (possibly empty),
returned with its original casing. -/
def findExecErrorAux : List Char → Option String
  | [] => none
  | c :: cs =>
    if ciStartsWith execErrorPat (c :: cs) then
      some (String.mk (((c :: cs).drop execErrorPat.length).takeWhile isJsDotChar))
    else findExecErrorAux cs

/-- Match of `RUN_EXEC_ERROR` against a chunk, capture group 1. -/
def findExecError (text : String) : Option String :=
  findExecErrorAux text.toList

/-- Pieces of `IS_OUTSIDE_REPOSITORY_REGEXP =
/Test suite failed to run[\s\S]*fatal:[\s\S]*is outside repository/im`. -/
def outsideRepoPat1 : List Char := lowerList "Test suite failed to run".toList

def outsideRepoPat2 : List Char := lowerList "fatal:".toList

def outsideRepoPat3 : List Char := lowerList "is outside repository".toList

/-- `IS_OUTSIDE_REPOSITORY_REGEXP.test`: the three literals occur in
order (case-insensitively), with arbitrary text between them. -/
def isOutsideRepositoryTest (s : String) : Bool :=
  match seekAfterCi outsideRepoPat1 s.toList with
  | none => false
  | some r1 =>
    match seekAfterCi outsideRepoPat2 r1 with
    | none => false
    | some r2 => (seekAfterCi outsideRepoPat3 r2).isSome

/-- Literal of `WATCH_IS_NOT_SUPPORTED_REGEXP =
/^s*--watch is not supported without git\/hg, please use --watchAlls*/im`.
Note the source pattern says `s*` (a literal letter s, repeated), not
`\s*`; the trailing `s*` always matches the empty string. -/
def watchNotSupportedPat : List Char :=
  lowerList "--watch is not supported without git/hg, please use --watchAll".toList

/-- Split a character list at every newline; the separators are not
kept, and a trailing newline yields a final empty segment (the
semantics of `String.splitOn "\n"`). -/
def splitLines : List Char → List (List Char)
  | [] => [[]]
  | c :: cs =>
    if c == '\n' then [] :: splitLines cs
    else
      match splitLines cs with
      | [] => [[c]]
      | l :: ls => (c :: l) :: ls

/-- Re-join segments with newlines (`String.intercalate "\n"`). -/
def joinLines : List (List Char) → List Char
  | [] => []
  | [l] => l
  | l :: l2 :: rest => l ++ '\n' :: joinLines (l2 :: rest)

/-- `WATCH_IS_NOT_SUPPORTED_REGEXP.test`: some line starts with zero or
more `s`/`S` characters followed by the literal (case-insensitive). -/
def watchIsNotSupportedTest (s : String) : Bool :=
  (splitLines s.toList).any fun l =>
    ciStartsWith watchNotSupportedPat (l.dropWhile fun c => c == 's' || c == 'S')

/-- `SnapshotFailRegex = /(snapshots? failed)|(snapshot test failed)/i`. -/
def snapshotFailTest (s : String) : Bool :=
  ciHasSubstr s "snapshot failed" || ciHasSubstr s "snapshots failed" ||
    ciHasSubstr s "snapshot test failed"

/-- The three alternatives of `CONTROL_MESSAGES =
/^(onRunStart|onRunComplete|Test results written to)[^\n]+\n/gim`,
pre-lowered. -/
def controlPrefixes : List (List Char) :=
  [lowerList "onRunStart".toList, lowerList "onRunComplete".toList,
    lowerList "Test results written to".toList]

/-- A newline-terminated line is removed by `CONTROL_MESSAGES` exactly
when it starts with one of the keywords (case-insensitively) and has at
least one further character (the `[^\n]+` part). -/
def isControlLine (l : List Char) : Bool :=
  controlPrefixes.any fun p => ciStartsWith p l && decide (p.length < l.length)

/-- Drop the control lines among the newline-terminated segments; the
final segment (not followed by a newline in the original text) is never
removed because the regex requires a trailing `\n`. -/
def cleanSegs : List (List Char) → List (List Char)
  | [] => []
  | [l] => [l]
  | l :: l2 :: rest =>
    if isControlLine l then cleanSegs (l2 :: rest)
    else l :: cleanSegs (l2 :: rest)

/-- `RunTestListener.cleanupOutput`: global replace of
`CONTROL_MESSAGES` by the empty string. -/
def cleanupOutput (text : String) : String :=
  String.mk (joinLines (cleanSegs (splitLines text.toList)))

/-- `RunTestListener.shouldIgnoreOutput`. -/
def shouldIgnoreOutput (text : String) : Bool :=
  decide (text.length ≤ 0) || strHasSubstr text "Watch Usage"

/-- `JsonArrayRegexp = /^\[.*?\]$/gm` matches exactly the full lines
that start with `[` and end with `]` (the lazy `.*?` backtracks until
the `$` anchor holds, consuming the whole line). -/
def lastChar : List Char → Option Char
  | [] => none
  | [c] => some c
  | _ :: c :: cs => lastChar (c :: cs)

def isJsonArrayLine (l : List Char) : Bool :=
  match l with
  | [] => false
  | c :: cs => c == '[' && lastChar cs == some ']'

/-- All matches of `JsonArrayRegexp` over the accumulated buffer. -/
def jsonArrayMatches (buffer : String) : List String :=
  ((splitLines buffer.toList).filter isJsonArrayLine).map String.mk

/-! ### Data model -/

/-- The slice of a `JestProcess` handle the listeners read: the request
type tag, the (`as any`) `updateSnapshot` flag on the request, and the
mutable `stopReason` (`none` when unset). -/
structure JestProcess where
  requestType : String
  stopReason : Option String
  updateSnapshot : Bool
deriving DecidableEq

/-- `MonitorLongRun` from Settings: `number | 'off'`. -/
inductive MonitorLongRun where
  | num (n : Int)
  | off
deriving DecidableEq

/-- `RunInfo` held by the run test listener while a run is live. -/
structure RunInfo where
  process : JestProcess
  numTotalTestSuites : Option Nat
deriving DecidableEq

/-- `JestRunEvent` variants fired by the listeners.  Optional JS fields
`newLine`/`isError` are `Bool` (absent = `false`); optional `raw`,
`error` and `code` are `Option`. -/
inductive RunEvent where
  | processStart (process : JestProcess)
  | start (process : JestProcess)
  | data (process : JestProcess) (text : String) (raw : Option String)
      (newLine : Bool) (isError : Bool)
  | longRun (process : JestProcess) (threshold : Int) (numTotalTestSuites : Option Nat)
  | runEnd (process : JestProcess)
  | exit (process : JestProcess) (error : Option String) (code : Option Int)
deriving DecidableEq

/-- Recovery actions a listener requests from the session/supervisor.
The snapshot prompt is modelled as a single action (the subsequent
`update-snapshot` scheduling happens only in the asynchronous user
response, outside the synchronous listener code). -/
inductive RecoveryAction where
  | scheduleProcess (requestType : String)
  | stopProcess
  | promptSnapshotUpdate
deriving DecidableEq

/-! ### LongRunMonitor -/

/-- Runtime state of `LongRunMonitor`: resolved threshold and whether
the single-shot timer is armed. -/
structure LongRunMonitorState where
  thresholdMs : Int
  timer : Bool
deriving DecidableEq

/-- Threshold resolution in `LongRunMonitor`'s constructor. -/
def resolveThreshold : Option MonitorLongRun → Int
  | none => 60000
  | some (MonitorLongRun.num n) => if n > 0 then n else -1
  | some MonitorLongRun.off => -1

/-- `new LongRunMonitor(callback, logging, option)`. -/
def mkLongRunMonitor (option : Option MonitorLongRun) : LongRunMonitorState :=
  ⟨resolveThreshold option, false⟩

/-- `LongRunMonitor.start`: no-op when disabled; otherwise (re-)arms the
single timer (an already armed timer is cancelled first). -/
def monitorStart (m : LongRunMonitorState) : LongRunMonitorState :=
  if m.thresholdMs ≤ 0 then m else { m with timer := true }

/-- `LongRunMonitor.cancel`: disarm unconditionally. -/
def monitorCancel (m : LongRunMonitorState) : LongRunMonitorState :=
  { m with timer := false }

/-! ### RunTestListener -/

/-- Mutable state of a `RunTestListener`, plus the immutable
`enableSnapshotUpdateMessages` setting read from the session. -/
structure RunListenerState where
  monitor : LongRunMonitorState
  runInfo : Option RunInfo
  exitCode : Option Int
  enableSnapshotUpdateMessages : Bool
deriving DecidableEq

/-- `RunTestListener.runStarted`. -/
def runStarted (s : RunListenerState) (info : RunInfo) : RunListenerState :=
  { s with runInfo := some info, monitor := monitorStart s.monitor }

/-- `RunTestListener.runEnded`. -/
def runEnded (s : RunListenerState) : RunListenerState :=
  { s with monitor := monitorCancel s.monitor, runInfo := none }

/-- `RunTestListener.handleRunStart`. -/
def handleRunStart (p : JestProcess) (output : String) (s : RunListenerState) :
    RunListenerState × List RunEvent :=
  if strHasSubstr output "onRunStart" = true then
    (runStarted s ⟨p, getNumTotalTestSuites output⟩, [RunEvent.start p])
  else (s, [])

/-- `RunTestListener.handleRunComplete`. -/
def handleRunComplete (p : JestProcess) (output : String) (s : RunListenerState) :
    RunListenerState × List RunEvent :=
  if strHasSubstr output "onRunComplete" = true then
    let errEvents :=
      match findExecError output with
      | some msg => [RunEvent.data p msg none true true]
      | none => []
    (runEnded s, errEvents ++ [RunEvent.runEnd p])
  else (s, [])

/-- `RunTestListener.handleSnapshotTestFailuer` (sic): the synchronous
effect is at most showing the prompt. -/
def handleSnapshotTestFailuer (p : JestProcess) (d : String) (s : RunListenerState) :
    List RecoveryAction :=
  if p.updateSnapshot then []
  else if s.enableSnapshotUpdateMessages && snapshotFailTest d then
    [RecoveryAction.promptSnapshotUpdate]
  else []

/-- `RunTestListener.handleWatchNotSupportedError`. -/
def handleWatchNotSupportedError (p : JestProcess) (d : String) : List RecoveryAction :=
  if (isOutsideRepositoryTest d || watchIsNotSupportedTest d) = true then
    if p.requestType = "watch-tests" then
      [RecoveryAction.scheduleProcess "watch-all-tests", RecoveryAction.stopProcess]
    else []
  else []

/-- `RunTestListener.onExecutableStdErr`: returns the new state, the
run events fired (in order), and the recovery actions requested. -/
def onExecutableStdErr (p : JestProcess) (message raw : String) (s : RunListenerState) :
    RunListenerState × List RunEvent × List RecoveryAction :=
  if shouldIgnoreOutput message = true then (s, [], [])
  else
    let cleaned := cleanupOutput raw
    let r1 := handleRunStart p message s
    let r2 := handleRunComplete p message r1.1
    (r2.1,
      r1.2 ++ [RunEvent.data p message (some cleaned) false false] ++ r2.2,
      handleSnapshotTestFailuer p message r2.1 ++ handleWatchNotSupportedError p message)

/-- Expiry of the armed `setTimeout` timer: runs `onLongRun` (which
fires `long-run` only when a `RunInfo` is live) and disarms.  A
cancelled (unarmed) timer never fires. -/
def onTimerExpire (s : RunListenerState) : RunListenerState × List RunEvent :=
  if s.monitor.timer then
    let evs :=
      match s.runInfo with
      | some info =>
        [RunEvent.longRun info.process s.monitor.thresholdMs info.numTotalTestSuites]
      | none => []
    ({ s with monitor := { s.monitor with timer := false } }, evs)
  else (s, [])

/-- `RunTestListener.handleWatchProcessCrash`. -/
def handleWatchProcessCrash (p : JestProcess) : Option String :=
  if (p.requestType = "watch-tests" ∨ p.requestType = "watch-all-tests") ∧
      p.stopReason ≠ some "on-demand" then
    some ("Jest process \"" ++ p.requestType ++ "\" ended unexpectedly")
  else none

/-- `RunTestListener.onProcessExit`: `runEnded` then record the code. -/
def runOnProcessExit (code : Option Int) (s : RunListenerState) : RunListenerState :=
  { runEnded s with exitCode := code }

/-- `RunTestListener.onProcessClose`: fire exactly one `exit` event. -/
def runOnProcessClose (p : JestProcess) (s : RunListenerState) : List RunEvent :=
  [RunEvent.exit p (handleWatchProcessCrash p) s.exitCode]

/-! ### ListTestFileListener -/

/-- Mutable state of a `ListTestFileListener`. -/
structure ListListenerState where
  buffer : String
  stderrOutput : String
  exitCode : Option Int
deriving DecidableEq

/-- The single `onResult` callback invocation
`(files?, error?, exitCode?)`. -/
structure CallbackValue where
  files : Option (List String)
  error : Option String
  code : Option Int
deriving DecidableEq

/-- `ListTestFileListener.onExecutableOutput`. -/
def listOnExecutableOutput (data : String) (s : ListListenerState) : ListListenerState :=
  { s with buffer := s.buffer ++ data }

/-- `ListTestFileListener.onExecutableStdErr` (accumulates the raw text). -/
def listOnExecutableStdErr (raw : String) (s : ListListenerState) : ListListenerState :=
  { s with stderrOutput := s.stderrOutput ++ raw }

/-- `ListTestFileListener.onProcessExit`. -/
def listOnProcessExit (code : Option Int) (s : ListListenerState) : ListListenerState :=
  { s with exitCode := code }

/-- The `json.reduce` loop in `ListTestFileListener.onProcessClose`:
parse each matched substring (`JSON.parse`, abstracted as `parse`
returning a stringified error on throw), drop falsy (empty) entries,
normalize through `fsPath` (`vscode.Uri.file(f).fsPath`, abstracted),
and concatenate left to right; the first parse throw aborts the loop. -/
def reduceFiles (parse : String → Except String (List String))
    (fsPath : String → String) : List String → List String → Except String (List String)
  | acc, [] => Except.ok acc
  | acc, m :: ms =>
    match parse m with
    | Except.ok files =>
      reduceFiles parse fsPath (acc ++ (files.filter fun f => !(f == "")).map fsPath) ms
    | Except.error e => Except.error e

/-- `ListTestFileListener.onProcessClose`. -/
def listOnProcessClose (parse : String → Except String (List String))
    (fsPath : String → String) (s : ListListenerState) : CallbackValue :=
  if s.exitCode ≠ some 0 then ⟨none, some s.stderrOutput, s.exitCode⟩
  else
    let json := jsonArrayMatches s.buffer
    if json.isEmpty then ⟨some [], none, none⟩
    else
      match reduceFiles parse fsPath [] json with
      | Except.ok uriFiles => ⟨some uriFiles, none, none⟩
      | Except.error e => ⟨none, some e, s.exitCode⟩

end ProcessListeners

open ProcessListeners

/-- C1 (counterexample): a stderr chunk that contains the full run-start
marker (`onRunStart: numTotalTestSuites: 3`) together with the `Watch
Usage` substring is suppressed, and the listener returns immediately:
no event is fired, no recovery action is requested, and the state is
completely unchanged (no Run Info is created, the monitor is not
armed), so the chunk was NOT processed by marker detection before being
suppressed, contrary to the claim. -/
theorem claim_C1_counterexample :
    shouldIgnoreOutput "onRunStart: numTotalTestSuites: 3 Watch Usage" = true ∧
    getNumTotalTestSuites "onRunStart: numTotalTestSuites: 3 Watch Usage" = some 3 ∧
    onExecutableStdErr ⟨"all-tests", none, false⟩
      "onRunStart: numTotalTestSuites: 3 Watch Usage"
      "onRunStart: numTotalTestSuites: 3 Watch Usage"
      ⟨⟨60000, false⟩, none, none, true⟩
      = (⟨⟨60000, false⟩, none, none, true⟩, [], []) := by decide

/-- C1 (amended): for every stderr chunk whose message is empty or
contains `Watch Usage`, `onExecutableStdErr` returns at once: no `data`
event is fired, and no internal marker detection (run-start,
run-complete, snapshot failure, watch-not-supported) is performed —
the state is unchanged and no events or actions are produced. -/
theorem claim_C1 (p : JestProcess) (message raw : String) (s : RunListenerState)
    (h : shouldIgnoreOutput message = true) :
    onExecutableStdErr p message raw s = (s, [], []) := by
  simp [onExecutableStdErr, h]

/-- C1 witness: the amended theorem at a concrete suppressed chunk. -/
theorem claim_C1_witness :
    onExecutableStdErr ⟨"watch-tests", none, false⟩ "press w to show Watch Usage"
      "press w to show Watch Usage" ⟨⟨60000, false⟩, none, none, true⟩
      = (⟨⟨60000, false⟩, none, none, true⟩, [], []) :=
  claim_C1 ⟨"watch-tests", none, false⟩ "press w to show Watch Usage"
    "press w to show Watch Usage" ⟨⟨60000, false⟩, none, none, true⟩ (by decide)

theorem cleanSegs_ne_nil :
    ∀ segs : List (List Char), segs ≠ [] → cleanSegs segs ≠ [] := by
  intro segs
  induction segs with
  | nil => intro h; exact absurd rfl h
  | cons l rest ih =>
    intro _
    cases rest with
    | nil => simp [cleanSegs]
    | cons l2 rest2 =>
      simp only [cleanSegs]
      split
      · exact ih (by simp)
      · simp

/-- Every newline-terminated segment surviving `cleanSegs` is not a
control-noise line (the final, unterminated segment is exempt, as in
the source regex which requires a trailing newline). -/
theorem cleanSegs_dropLast_clean :
    ∀ segs : List (List Char),
      ((cleanSegs segs).dropLast).all (fun l => !(isControlLine l)) = true := by
  intro segs
  induction segs with
  | nil => simp [cleanSegs]
  | cons l rest ih =>
    cases rest with
    | nil => simp [cleanSegs]
    | cons l2 rest2 =>
      simp only [cleanSegs]
      by_cases hc : isControlLine l
      · simp only [hc, if_true]
        exact ih
      · simp only [hc, if_false]
        cases hcl : cleanSegs (l2 :: rest2) with
        | nil => exact absurd hcl (cleanSegs_ne_nil (l2 :: rest2) (by simp))
        | cons m ms =>
          rw [hcl] at ih
          simpa [List.dropLast_cons₂, hc] using ih

/-- C2 (counterexample): for the non-suppressed chunk
`"onRunStart: numTotalTestSuites: 1\nJest run\n"` the emitted `data`
event carries the chunk unmodified in its `text` field — the
control-noise line `onRunStart: ...` is still present there (only the
`raw` field was cleaned to `"Jest run\n"`), so it is not the case that
every forwarded text field has control-noise lines removed. -/
theorem claim_C2_counterexample :
    (onExecutableStdErr ⟨"all-tests", none, false⟩
        "onRunStart: numTotalTestSuites: 1\nJest run\n"
        "onRunStart: numTotalTestSuites: 1\nJest run\n"
        ⟨⟨60000, false⟩, none, none, false⟩).2.1
      = [RunEvent.start ⟨"all-tests", none, false⟩,
         RunEvent.data ⟨"all-tests", none, false⟩
           "onRunStart: numTotalTestSuites: 1\nJest run\n" (some "Jest run\n") false false] ∧
    strHasSubstr "onRunStart: numTotalTestSuites: 1\nJest run\n" "onRunStart" = true := by
  decide

/-- C2 (amended): for every non-suppressed stderr chunk the listener
fires a `data` event whose `raw` field is the raw chunk with all
newline-terminated control-noise lines removed (`cleanupOutput`), while
its `text` field is the message forwarded unmodified (it may still
contain control-noise lines); the cleaned `raw` contains no
newline-terminated control-noise line. -/
theorem claim_C2 (p : JestProcess) (message raw : String) (s : RunListenerState)
    (h : shouldIgnoreOutput message = false) :
    RunEvent.data p message (some (cleanupOutput raw)) false false
      ∈ (onExecutableStdErr p message raw s).2.1 ∧
    ((cleanSegs (splitLines raw.toList)).dropLast).all (fun l => !(isControlLine l)) = true := by
  constructor
  · simp [onExecutableStdErr, h]
  · exact cleanSegs_dropLast_clean _

/-- C2 witness: the amended theorem at a concrete chunk whose raw text
holds one control-noise line. -/
theorem claim_C2_witness :
    RunEvent.data ⟨"all-tests", none, false⟩ "2 tests passed"
        (some (cleanupOutput "Test results written to out.json\n2 tests passed"))
        false false
      ∈ (onExecutableStdErr ⟨"all-tests", none, false⟩ "2 tests passed"
          "Test results written to out.json\n2 tests passed"
          ⟨⟨60000, false⟩, none, none, false⟩).2.1 ∧
    ((cleanSegs (splitLines
        "Test results written to out.json\n2 tests passed".toList)).dropLast).all
      (fun l => !(isControlLine l)) = true :=
  claim_C2 ⟨"all-tests", none, false⟩ "2 tests passed"
    "Test results written to out.json\n2 tests passed"
    ⟨⟨60000, false⟩, none, none, false⟩ (by decide)

/-- C3 (counterexample): the chunk `"onRunStart\n"` contains no
run-start marker in the claim's sense (no embedded
`numTotalTestSuites: <N>`, so `getNumTotalTestSuites` is `none`), yet
the listener emits a `start` event for it and creates Run Info with an
absent suite count. -/
theorem claim_C3_counterexample :
    getNumTotalTestSuites "onRunStart\n" = none ∧
    (onExecutableStdErr ⟨"all-tests", none, false⟩ "onRunStart\n" "onRunStart\n"
        ⟨⟨60000, false⟩, none, none, false⟩).2.1
      = [RunEvent.start ⟨"all-tests", none, false⟩,
         RunEvent.data ⟨"all-tests", none, false⟩ "onRunStart\n"
           (some "onRunStart\n") false false] ∧
    (onExecutableStdErr ⟨"all-tests", none, false⟩ "onRunStart\n" "onRunStart\n"
        ⟨⟨60000, false⟩, none, none, false⟩).1.runInfo
      = some ⟨⟨"all-tests", none, false⟩, none⟩ := by decide

/-- C3 (amended): `handleRunStart` transitions Idle to Running exactly
when the chunk contains the case-sensitive substring `onRunStart`
(whether or not a `numTotalTestSuites: <N>` is embedded): it then
stores Run Info whose suite count is the parsed `N` when the
`onRunStart: numTotalTestSuites: <N>` pattern matches and `none`
otherwise, arms the Long-Run Monitor (when enabled), and emits exactly
one `start` event; without the substring nothing happens. -/
theorem claim_C3 (p : JestProcess) (output : String) (s : RunListenerState) :
    (handleRunStart p output s).2
      = (if strHasSubstr output "onRunStart" = true then [RunEvent.start p] else []) ∧
    (strHasSubstr output "onRunStart" = true →
      (handleRunStart p output s).1
        = { s with runInfo := some ⟨p, getNumTotalTestSuites output⟩,
                   monitor := monitorStart s.monitor }) ∧
    (strHasSubstr output "onRunStart" = false → (handleRunStart p output s).1 = s) ∧
    (strHasSubstr output "onRunStart" = true → 0 < s.monitor.thresholdMs →
      (handleRunStart p output s).1.monitor.timer = true) := by
  by_cases h : strHasSubstr output "onRunStart" = true
  · refine ⟨by simp [handleRunStart, h],
      fun _ => by simp [handleRunStart, h, runStarted], ?_, ?_⟩
    · intro hf; rw [h] at hf; cases hf
    · intro _ ht
      simp only [handleRunStart, h, if_true, runStarted, monitorStart]
      rw [if_neg (by omega)]
  · have hf : strHasSubstr output "onRunStart" = false := by
      cases hx : strHasSubstr output "onRunStart"
      · rfl
      · exact absurd hx h
    refine ⟨by simp [handleRunStart, hf], fun ht => absurd ht h,
      fun _ => by simp [handleRunStart, hf], fun ht => absurd ht h⟩

/-- C3 witness: the amended theorem at a chunk carrying a parsable
suite count. -/
theorem claim_C3_witness :
    (handleRunStart ⟨"all-tests", none, false⟩ "onRunStart: numTotalTestSuites: 12"
        ⟨⟨60000, false⟩, none, none, false⟩).1
      = ⟨⟨60000, true⟩, some ⟨⟨"all-tests", none, false⟩, some 12⟩, none, false⟩ :=
  (claim_C3 ⟨"all-tests", none, false⟩ "onRunStart: numTotalTestSuites: 12"
    ⟨⟨60000, false⟩, none, none, false⟩).2.1 (by decide)

/-- C4: threshold resolution of the Long-Run Monitor — unset yields
60000 ms, a positive number is used unchanged, zero/negative/non-numeric
yield the disabled threshold `-1`, and for a disabled monitor `start()`
is a no-op that never arms the timer. -/
theorem claim_C4 :
    resolveThreshold none = 60000 ∧
    (∀ n : Int, 0 < n → resolveThreshold (some (MonitorLongRun.num n)) = n) ∧
    (∀ n : Int, n ≤ 0 → resolveThreshold (some (MonitorLongRun.num n)) = -1) ∧
    resolveThreshold (some MonitorLongRun.off) = -1 ∧
    (∀ m : LongRunMonitorState, m.thresholdMs ≤ 0 → monitorStart m = m) := by
  refine ⟨rfl, ?_, ?_, rfl, ?_⟩
  · intro n hn; simp only [resolveThreshold]; rw [if_pos (by omega)]
  · intro n hn; simp only [resolveThreshold]; rw [if_neg (by omega)]
  · intro m hm; simp [monitorStart, hm]

/-- C4 witness: concrete instances of each branch. -/
theorem claim_C4_witness :
    resolveThreshold (some (MonitorLongRun.num 5000)) = 5000 ∧
    resolveThreshold (some (MonitorLongRun.num 0)) = -1 ∧
    resolveThreshold (some (MonitorLongRun.num (-7))) = -1 ∧
    monitorStart ⟨-1, false⟩ = ⟨-1, false⟩ :=
  ⟨claim_C4.2.1 5000 (by decide), claim_C4.2.2.1 0 (by decide),
    claim_C4.2.2.1 (-7) (by decide), claim_C4.2.2.2.2 ⟨-1, false⟩ (by decide)⟩

/-- C5: `cancel()` is total and idempotent — it always leaves the
monitor disarmed, a second `cancel()` changes nothing, and cancelling a
never-armed monitor has no observable effect at all. -/
theorem claim_C5 (m : LongRunMonitorState) :
    monitorCancel (monitorCancel m) = monitorCancel m ∧
    (monitorCancel m).timer = false ∧
    (m.timer = false → monitorCancel m = m) := by
  cases m with
  | mk t b => exact ⟨rfl, rfl, fun h => by simp at h; simp [monitorCancel, h]⟩

/-- C5 witness: cancelling an unarmed monitor is the identity. -/
theorem claim_C5_witness :
    monitorCancel (monitorCancel ⟨60000, false⟩) = monitorCancel ⟨60000, false⟩ ∧
    monitorCancel ⟨60000, false⟩ = (⟨60000, false⟩ : LongRunMonitorState) :=
  ⟨(claim_C5 ⟨60000, false⟩).1, (claim_C5 ⟨60000, false⟩).2.2 rfl⟩

/-- C6: on a chunk containing `onRunComplete` received while Running,
`handleRunComplete` disarms the Long-Run Monitor and destroys Run Info,
fires the `isError` `data` event exactly when the
`onRunComplete: execError: <message>` pattern matches (carrying the
captured message), then fires exactly one `end` event; afterwards the
timer cannot produce a `long-run` event. -/
theorem claim_C6 (p : JestProcess) (output : String) (s : RunListenerState) (info : RunInfo)
    (_hrun : s.runInfo = some info)
    (h : strHasSubstr output "onRunComplete" = true) :
    (handleRunComplete p output s).1.monitor.timer = false ∧
    (handleRunComplete p output s).1.runInfo = none ∧
    (handleRunComplete p output s).2
      = (match findExecError output with
         | some msg => [RunEvent.data p msg none true true]
         | none => []) ++ [RunEvent.runEnd p] ∧
    (handleRunComplete p output s).2.count (RunEvent.runEnd p) = 1 ∧
    onTimerExpire (handleRunComplete p output s).1 = ((handleRunComplete p output s).1, []) := by
  refine ⟨by simp [handleRunComplete, h, runEnded, monitorCancel],
    by simp [handleRunComplete, h, runEnded],
    by simp [handleRunComplete, h],
    ?_, ?_⟩
  · cases hfe : findExecError output with
    | none => simp [handleRunComplete, h, hfe]
    | some msg => simp [handleRunComplete, h, hfe]
  · simp [handleRunComplete, h, onTimerExpire, runEnded, monitorCancel]

/-- C6 witness: a run-complete chunk with an exec-error message, while
a run is live. -/
theorem claim_C6_witness :
    (handleRunComplete ⟨"watch-tests", none, false⟩ "onRunComplete: execError: boom"
        ⟨⟨60000, true⟩, some ⟨⟨"watch-tests", none, false⟩, some 2⟩, none, false⟩).1.monitor.timer
      = false ∧
    (handleRunComplete ⟨"watch-tests", none, false⟩ "onRunComplete: execError: boom"
        ⟨⟨60000, true⟩, some ⟨⟨"watch-tests", none, false⟩, some 2⟩, none, false⟩).1.runInfo
      = none ∧
    (handleRunComplete ⟨"watch-tests", none, false⟩ "onRunComplete: execError: boom"
        ⟨⟨60000, true⟩, some ⟨⟨"watch-tests", none, false⟩, some 2⟩, none, false⟩).2
      = [RunEvent.data ⟨"watch-tests", none, false⟩ "boom" none true true,
         RunEvent.runEnd ⟨"watch-tests", none, false⟩] ∧
    (handleRunComplete ⟨"watch-tests", none, false⟩ "onRunComplete: execError: boom"
        ⟨⟨60000, true⟩, some ⟨⟨"watch-tests", none, false⟩, some 2⟩, none, false⟩).2.count
        (RunEvent.runEnd ⟨"watch-tests", none, false⟩)
      = 1 ∧
    onTimerExpire (handleRunComplete ⟨"watch-tests", none, false⟩
        "onRunComplete: execError: boom"
        ⟨⟨60000, true⟩, some ⟨⟨"watch-tests", none, false⟩, some 2⟩, none, false⟩).1
      = ((handleRunComplete ⟨"watch-tests", none, false⟩ "onRunComplete: execError: boom"
          ⟨⟨60000, true⟩, some ⟨⟨"watch-tests", none, false⟩, some 2⟩, none, false⟩).1, []) :=
  claim_C6 ⟨"watch-tests", none, false⟩ "onRunComplete: execError: boom"
    ⟨⟨60000, true⟩, some ⟨⟨"watch-tests", none, false⟩, some 2⟩, none, false⟩
    ⟨⟨"watch-tests", none, false⟩, some 2⟩ rfl (by decide)

theorem count_snapshot_schedule_eq_zero (p : JestProcess) (d : String)
    (s : RunListenerState) (a : RecoveryAction)
    (ha : a ≠ RecoveryAction.promptSnapshotUpdate) :
    (handleSnapshotTestFailuer p d s).count a = 0 := by
  unfold handleSnapshotTestFailuer
  split
  · rfl
  · split
    · simp [List.count_singleton, ha]
    · rfl

/-- C7: on every non-suppressed stderr chunk matching the
outside-repository or watch-not-supported pattern, the listener
requests the `watch-all-tests` reschedule exactly once and stops the
process exactly once when the request type is `watch-tests`, and
requests neither action for any other request type. -/
theorem claim_C7 (p : JestProcess) (message raw : String) (s : RunListenerState)
    (h1 : shouldIgnoreOutput message = false)
    (h2 : (isOutsideRepositoryTest message || watchIsNotSupportedTest message) = true) :
    (p.requestType = "watch-tests" →
      (onExecutableStdErr p message raw s).2.2.count
          (RecoveryAction.scheduleProcess "watch-all-tests") = 1 ∧
      (onExecutableStdErr p message raw s).2.2.count RecoveryAction.stopProcess = 1) ∧
    (p.requestType ≠ "watch-tests" →
      (onExecutableStdErr p message raw s).2.2.count
          (RecoveryAction.scheduleProcess "watch-all-tests") = 0 ∧
      (onExecutableStdErr p message raw s).2.2.count RecoveryAction.stopProcess = 0) := by
  have hsch := count_snapshot_schedule_eq_zero p message
    (handleRunComplete p message (handleRunStart p message s).1).1
    (RecoveryAction.scheduleProcess "watch-all-tests") (by simp)
  have hstp := count_snapshot_schedule_eq_zero p message
    (handleRunComplete p message (handleRunStart p message s).1).1
    RecoveryAction.stopProcess (by simp)
  constructor
  · intro hw
    constructor
    · simp [onExecutableStdErr, h1, List.count_append, hsch,
        handleWatchNotSupportedError, h2, hw]
    · simp [onExecutableStdErr, h1, List.count_append, hstp,
        handleWatchNotSupportedError, h2, hw]
  · intro hw
    constructor
    · simp [onExecutableStdErr, h1, List.count_append, hsch,
        handleWatchNotSupportedError, h2, hw]
    · simp [onExecutableStdErr, h1, List.count_append, hstp,
        handleWatchNotSupportedError, h2, hw]

/-- C7 witness: the watch-not-supported text on a `watch-tests` process
(both actions once) and on an `all-tests` process (no action). -/
theorem claim_C7_witness :
    ((onExecutableStdErr ⟨"watch-tests", none, false⟩
        "--watch is not supported without git/hg, please use --watchAll"
        "--watch is not supported without git/hg, please use --watchAll"
        ⟨⟨60000, false⟩, none, none, false⟩).2.2.count
        (RecoveryAction.scheduleProcess "watch-all-tests") = 1 ∧
     (onExecutableStdErr ⟨"watch-tests", none, false⟩
        "--watch is not supported without git/hg, please use --watchAll"
        "--watch is not supported without git/hg, please use --watchAll"
        ⟨⟨60000, false⟩, none, none, false⟩).2.2.count RecoveryAction.stopProcess = 1) ∧
    ((onExecutableStdErr ⟨"all-tests", none, false⟩
        "--watch is not supported without git/hg, please use --watchAll"
        "--watch is not supported without git/hg, please use --watchAll"
        ⟨⟨60000, false⟩, none, none, false⟩).2.2.count
        (RecoveryAction.scheduleProcess "watch-all-tests") = 0 ∧
     (onExecutableStdErr ⟨"all-tests", none, false⟩
        "--watch is not supported without git/hg, please use --watchAll"
        "--watch is not supported without git/hg, please use --watchAll"
        ⟨⟨60000, false⟩, none, none, false⟩).2.2.count RecoveryAction.stopProcess = 0) :=
  ⟨(claim_C7 ⟨"watch-tests", none, false⟩
      "--watch is not supported without git/hg, please use --watchAll"
      "--watch is not supported without git/hg, please use --watchAll"
      ⟨⟨60000, false⟩, none, none, false⟩ (by decide) (by decide)).1 rfl,
   (claim_C7 ⟨"all-tests", none, false⟩
      "--watch is not supported without git/hg, please use --watchAll"
      "--watch is not supported without git/hg, please use --watchAll"
      ⟨⟨60000, false⟩, none, none, false⟩ (by decide) (by decide)).2 (by decide)⟩

/-- C8: `onProcessClose` fires exactly one `exit` event; it carries a
non-empty error string exactly when the process is a persistent
watch-type (`watch-tests` or `watch-all-tests`) whose `stopReason` is
not `on-demand`, and its `code` field is the exit code previously
recorded by `onProcessExit`. -/
theorem claim_C8 (p : JestProcess) (s : RunListenerState) :
    runOnProcessClose p s = [RunEvent.exit p (handleWatchProcessCrash p) s.exitCode] ∧
    ((∃ e, handleWatchProcessCrash p = some e ∧ 0 < e.length) ↔
      ((p.requestType = "watch-tests" ∨ p.requestType = "watch-all-tests") ∧
        p.stopReason ≠ some "on-demand")) ∧
    (∀ code : Option Int, (runOnProcessExit code s).exitCode = code) := by
  refine ⟨rfl, ?_, fun code => rfl⟩
  unfold handleWatchProcessCrash
  split
  case isTrue hcond =>
    constructor
    · intro _; exact hcond
    · intro _
      refine ⟨_, rfl, ?_⟩
      rw [String.length_append, String.length_append]
      have h14 : ("Jest process \"" : String).length = 14 := by decide
      omega
  case isFalse hcond =>
    constructor
    · rintro ⟨e, he, _⟩; cases he
    · intro hc; exact absurd hc hcond

/-- C8 witness: a crashed `watch-tests` process (error present) and an
`on-demand`-stopped one (error absent). -/
theorem claim_C8_witness :
    runOnProcessClose ⟨"watch-tests", none, false⟩ ⟨⟨60000, false⟩, none, some 1, false⟩
      = [RunEvent.exit ⟨"watch-tests", none, false⟩
          (handleWatchProcessCrash ⟨"watch-tests", none, false⟩) (some 1)] ∧
    (∃ e, handleWatchProcessCrash ⟨"watch-tests", none, false⟩ = some e ∧ 0 < e.length) ∧
    handleWatchProcessCrash ⟨"watch-tests", some "on-demand", false⟩ = none :=
  ⟨(claim_C8 ⟨"watch-tests", none, false⟩ ⟨⟨60000, false⟩, none, some 1, false⟩).1,
   (claim_C8 ⟨"watch-tests", none, false⟩ ⟨⟨60000, false⟩, none, some 1, false⟩).2.1.2
     (by simp),
   by decide⟩

theorem reduceFiles_ok (parse : String → Except String (List String))
    (fsPath : String → String) :
    ∀ (ms : List String) (fss : List (List String)) (acc : List String),
      List.Forall₂ (fun m fs => parse m = Except.ok fs) ms fss →
      reduceFiles parse fsPath acc ms
        = Except.ok (acc ++ fss.flatMap fun l => (l.filter fun f => !(f == "")).map fsPath) := by
  intro ms fss acc h
  induction h generalizing acc with
  | nil => simp [reduceFiles]
  | cons hpf hrest ih =>
    simp only [reduceFiles, hpf]
    rw [ih]
    simp [List.append_assoc]

theorem reduceFiles_error (parse : String → Except String (List String))
    (fsPath : String → String) :
    ∀ (ms1 : List String) (fss1 : List (List String)) (m : String) (ms2 : List String)
      (e : String) (acc : List String),
      List.Forall₂ (fun x fs => parse x = Except.ok fs) ms1 fss1 →
      parse m = Except.error e →
      reduceFiles parse fsPath acc (ms1 ++ m :: ms2) = Except.error e := by
  intro ms1 fss1 m ms2 e acc h1 he
  induction h1 generalizing acc with
  | nil => simp [reduceFiles, he]
  | cons hpf hrest ih =>
    simp only [List.cons_append, reduceFiles, hpf]
    exact ih _

/-- C9: behavior of the listing listener's `onProcessClose` (with
`JSON.parse` abstracted as `parse`, whose error value is the
stringified thrown error, and `vscode.Uri.file(f).fsPath` abstracted as
`fsPath`).  With recorded exit code 0: no bracket-delimited array line
in the buffer reports an empty list and no error; when every matched
line parses, the callback gets the parsed entries with falsy (empty)
entries dropped, normalized by `fsPath`, concatenated in discovery
order, and no error; when some matched line fails to parse (the first
failure after a prefix of successes), the callback gets no list, the
stringified error, and the last observed exit code.  With a non-zero
recorded exit code the callback gets no list, the accumulated stderr
text, and that code.  The callback value is produced exactly once. -/
theorem claim_C9 (parse : String → Except String (List String))
    (fsPath : String → String) (s : ListListenerState) :
    (s.exitCode = some 0 →
      ((jsonArrayMatches s.buffer = [] →
          listOnProcessClose parse fsPath s = ⟨some [], none, none⟩) ∧
       (∀ fss : List (List String),
          List.Forall₂ (fun m fs => parse m = Except.ok fs) (jsonArrayMatches s.buffer) fss →
          listOnProcessClose parse fsPath s
            = ⟨some (fss.flatMap fun l => (l.filter fun f => !(f == "")).map fsPath),
                none, none⟩) ∧
       (∀ (ms1 : List String) (m : String) (ms2 : List String) (e : String)
          (fss1 : List (List String)),
          jsonArrayMatches s.buffer = ms1 ++ m :: ms2 →
          List.Forall₂ (fun x fs => parse x = Except.ok fs) ms1 fss1 →
          parse m = Except.error e →
          listOnProcessClose parse fsPath s = ⟨none, some e, some 0⟩))) ∧
    (∀ c : Int, s.exitCode = some c → ¬(c = 0) →
      listOnProcessClose parse fsPath s = ⟨none, some s.stderrOutput, some c⟩) := by
  constructor
  · intro h0
    refine ⟨?_, ?_, ?_⟩
    · intro hj
      simp [listOnProcessClose, h0, hj]
    · intro fss hf
      cases hj : jsonArrayMatches s.buffer with
      | nil =>
        rw [hj] at hf
        cases hf
        simp [listOnProcessClose, h0, hj]
      | cons m ms =>
        rw [hj] at hf
        have hred := reduceFiles_ok parse fsPath (m :: ms) fss [] hf
        simp [listOnProcessClose, h0, hj, hred]
    · intro ms1 m ms2 e fss1 hsplit hf he
      have hred := reduceFiles_error parse fsPath ms1 fss1 m ms2 e [] hf he
      have hne : jsonArrayMatches s.buffer ≠ [] := by
        rw [hsplit]; exact List.append_ne_nil_of_right_ne_nil _ (by simp)
      simp only [listOnProcessClose, h0]
      rw [if_neg (by simp), if_neg (by simpa using hne)]
      rw [hsplit, hred]
  · intro c hc hne
    have hcond : s.exitCode ≠ some 0 := by rw [hc]; simp [hne]
    unfold listOnProcessClose
    rw [if_pos hcond, hc]

/-- A concrete stand-in for `JSON.parse` restricted to the inputs used
by the witnesses: it accepts exactly one array literal. -/
def demoParse : String → Except String (List String) :=
  fun m =>
    if m = "[\"/a.test.js\",\"\",\"/b.test.js\"]" then
      Except.ok ["/a.test.js", "", "/b.test.js"]
    else Except.error "SyntaxError: Unexpected token"

/-- C9 witness: a buffer holding one well-formed array line (with a
falsy entry that gets dropped) and exit code 0, plus the non-zero exit
code branch. -/
theorem claim_C9_witness :
    listOnProcessClose demoParse id
        ⟨"[\"/a.test.js\",\"\",\"/b.test.js\"]", "", some 0⟩
      = ⟨some ["/a.test.js", "/b.test.js"], none, none⟩ ∧
    listOnProcessClose demoParse id ⟨"[\"/a.test.js\",\"\",\"/b.test.js\"]", "boom", some 2⟩
      = ⟨none, some "boom", some 2⟩ :=
  ⟨((claim_C9 demoParse id
      ⟨"[\"/a.test.js\",\"\",\"/b.test.js\"]", "", some 0⟩).1 rfl).2.1
      [["/a.test.js", "", "/b.test.js"]]
      (List.Forall₂.cons rfl List.Forall₂.nil),
   (claim_C9 demoParse id
      ⟨"[\"/a.test.js\",\"\",\"/b.test.js\"]", "boom", some 2⟩).2 2 rfl (by decide)⟩

/-- C10: when `processClose` arrives with no previously recorded exit
code, the undefined code is treated as non-zero — the callback reports
failure with the accumulated stderr text and an absent exit code, never
the success path, regardless of the buffer contents. -/
theorem claim_C10 (parse : String → Except String (List String))
    (fsPath : String → String) (s : ListListenerState) (h : s.exitCode = none) :
    listOnProcessClose parse fsPath s = ⟨none, some s.stderrOutput, none⟩ := by
  have hcond : s.exitCode ≠ some 0 := by rw [h]; simp
  unfold listOnProcessClose
  rw [if_pos hcond, h]

/-- C10 witness: no `processExit` was observed, yet the buffer holds a
valid JSON array line — the failure path is still taken. -/
theorem claim_C10_witness :
    listOnProcessClose demoParse id
        ⟨"[\"/a.test.js\",\"\",\"/b.test.js\"]", "some stderr", none⟩
      = ⟨none, some "some stderr", none⟩ :=
  claim_C10 demoParse id
    ⟨"[\"/a.test.js\",\"\",\"/b.test.js\"]", "some stderr", none⟩ rfl
